import Mathlib

/-
Verification of the esp_gpio JTAG/SWD bitbang adapter driver
(src/src/jtag/drivers/esp_gpio.c).

The driver's observable state is embedded shallowly:
  * the pin assignments (the nine `static int *_gpio` variables) become
    the structure `Config`;
  * the dedicated-GPIO output bundle register becomes a `Nat` bit mask,
    and `dedic_gpio_cpu_ll_write_mask` becomes the pure `writeMask`;
  * the platform pin-validity macros `GPIO_IS_VALID_OUTPUT_GPIO` and
    `GPIO_IS_VALID_GPIO` (supplied by esp-idf, outside this repository's
    sources) are abstract boolean predicates passed as parameters;
  * the return codes are the integer constants used by the OpenOCD and
    esp-idf headers.
Every definition follows the corresponding C function line by line.
-/

namespace EspGpio

/-- OpenOCD return code ERROR_OK (value 0, from src/helper/log.h). -/
def ERROR_OK : Int := 0

/-- OpenOCD return code ERROR_FAIL (value -4, from src/helper/log.h). -/
def ERROR_FAIL : Int := -4

/-- OpenOCD return code for a malformed command invocation
(`ERROR_COMMAND_SYNTAX_ERROR`, value -601, from src/helper/command.h). -/
def ERROR_COMMAND_SYNERR : Int := -601

/-- esp-idf return code ESP_OK (value 0), returned by `esp_gpio_swdio_write`. -/
def ESP_OK : Int := 0

/-- esp-idf sentinel `GPIO_NUM_NC` (value -1): pin not configured. -/
def GPIO_NUM_NC : Int := -1

/-- Input-bundle bit mask for TDO (`#define GPIO_TDO_MASK 0x01`). -/
def GPIO_TDO_MASK : Nat := 0x01

/-- Output-bundle bit mask for TCK (`#define GPIO_TCK_MASK 0x01`). -/
def GPIO_TCK_MASK : Nat := 0x01

/-- Output-bundle bit mask for TDI (`#define GPIO_TDI_MASK 0x02`). -/
def GPIO_TDI_MASK : Nat := 0x02

/-- Output-bundle bit mask for TMS (`#define GPIO_TMS_MASK 0x04`). -/
def GPIO_TMS_MASK : Nat := 0x04

/-- Output-bundle bit mask for TRST (`#define GPIO_TRST_MASK 0x08`). -/
def GPIO_TRST_MASK : Nat := 0x08

/-- Output-bundle bit mask for SRST (`#define GPIO_SRST_MASK 0x10`). -/
def GPIO_SRST_MASK : Nat := 0x10

/-- Output-bundle bit mask for the activity indicator
(`#define GPIO_BLINK_MASK 0x20`). -/
def GPIO_BLINK_MASK : Nat := 0x20

/-- The nine `static int *_gpio` pin-assignment variables of esp_gpio.c
(default value `GPIO_NUM_NC` for each). -/
structure Config where
  tck_gpio : Int
  tms_gpio : Int
  tdi_gpio : Int
  tdo_gpio : Int
  trst_gpio : Int
  srst_gpio : Int
  blink_gpio : Int
  swdio_gpio : Int
  swclk_gpio : Int
deriving DecidableEq, Repr

/-- The default configuration: every pin variable initialized to
`GPIO_NUM_NC`, as at the top of esp_gpio.c. -/
def defaultConfig : Config :=
  { tck_gpio := GPIO_NUM_NC, tms_gpio := GPIO_NUM_NC, tdi_gpio := GPIO_NUM_NC,
    tdo_gpio := GPIO_NUM_NC, trst_gpio := GPIO_NUM_NC, srst_gpio := GPIO_NUM_NC,
    blink_gpio := GPIO_NUM_NC, swdio_gpio := GPIO_NUM_NC, swclk_gpio := GPIO_NUM_NC }

/-- `dedic_gpio_cpu_ll_write_mask mask value`: one atomic masked write to the
CPU's dedicated-GPIO output register, modelled on a `Nat` bit mask: the bits
selected by `mask` are replaced by the corresponding bits of `value`, all
other bits keep their previous value. -/
def writeMask (mask value out_ : Nat) : Nat :=
  ((out_ ||| mask) ^^^ mask) ||| (value &&& mask)

/-- `esp_gpio_write(tck, tms, tdi)` (the JTAG single-cycle write): three
successive `dedic_gpio_cpu_ll_write_mask` calls setting the TMS, TDI and TCK
bits (in that order) to the C-truthiness of the arguments, then the busy-wait
delay loop (no observable state), then `return ERROR_OK`.  Result: the output
register afterwards, paired with the return code. -/
def esp_gpio_write (tck tms tdi : Int) (out_ : Nat) : Nat × Int :=
  let o1 := writeMask GPIO_TMS_MASK (if tms ≠ 0 then GPIO_TMS_MASK else 0) out_
  let o2 := writeMask GPIO_TDI_MASK (if tdi ≠ 0 then GPIO_TDI_MASK else 0) o1
  let o3 := writeMask GPIO_TCK_MASK (if tck ≠ 0 then GPIO_TCK_MASK else 0) o2
  (o3, ERROR_OK)

/-- `esp_gpio_reset(trst, srst)`: writes the TRST bundle bit to the
C-truthiness of `trst` when the TRST pin is configured, then likewise and
independently for SRST; unconfigured lines are skipped; returns ERROR_OK. -/
def esp_gpio_reset (cfg : Config) (trst srst : Int) (out_ : Nat) : Nat × Int :=
  let o1 := if cfg.trst_gpio ≠ GPIO_NUM_NC then
              writeMask GPIO_TRST_MASK (if trst ≠ 0 then GPIO_TRST_MASK else 0) out_
            else out_
  let o2 := if cfg.srst_gpio ≠ GPIO_NUM_NC then
              writeMask GPIO_SRST_MASK (if srst ≠ 0 then GPIO_SRST_MASK else 0) o1
            else o1
  (o2, ERROR_OK)

/-- `esp_gpio_blink(on)`: writes the indicator bundle bit; returns ERROR_OK. -/
def esp_gpio_blink (on_ : Int) (out_ : Nat) : Nat × Int :=
  (writeMask GPIO_BLINK_MASK (if on_ ≠ 0 then GPIO_BLINK_MASK else 0) out_, ERROR_OK)

/-- `esp_gpio_khz(khz, *jtag_speed)`: rejects `khz = 0` (`!khz` in C) with
ERROR_FAIL, leaving both the recorded `s_jtag_speed_khz` and the output
parameter untouched; otherwise records `khz`, writes 0 through the output
parameter and returns ERROR_OK.  Result: (return code, new
`s_jtag_speed_khz`, new `*jtag_speed`), with `s_speed` and `jtag_speed`
the values held before the call. -/
def esp_gpio_khz (khz : Int) (s_speed : Int) (jtag_speed : Int) : Int × Int × Int :=
  if khz = 0 then (ERROR_FAIL, s_speed, jtag_speed)
  else (ERROR_OK, khz, 0)

/-- `esp_gpio_speed_div(speed, *khz)`: writes the recorded
`s_jtag_speed_khz` through the output parameter and returns ERROR_OK.
Result: (return code, `*khz`). -/
def esp_gpio_speed_div (speed : Int) (s_speed : Int) : Int × Int :=
  (ERROR_OK, s_speed)

/-- `esp_gpio_speed(speed)`: the delay assignment is commented out in the
source, so the call changes nothing and returns ERROR_OK. -/
def esp_gpio_speed (speed : Int) : Int :=
  ERROR_OK

/-- `esp_gpio_jtag_mode_possible()`: false as soon as TCK, TMS or TDO fails
the platform `GPIO_IS_VALID_OUTPUT_GPIO` check or TDI fails the
`GPIO_IS_VALID_GPIO` check, true otherwise.  The two platform predicates are
abstract parameters (`validOutputGpio`, `validGpio`). -/
def esp_gpio_jtag_mode_possible (validOutputGpio validGpio : Int → Bool)
    (cfg : Config) : Bool :=
  if !validOutputGpio cfg.tck_gpio then false
  else if !validOutputGpio cfg.tms_gpio then false
  else if !validGpio cfg.tdi_gpio then false
  else if !validOutputGpio cfg.tdo_gpio then false
  else true

/-- `esp_gpio_swd_mode_possible()`: false as soon as SWCLK or SWDIO fails
the platform `GPIO_IS_VALID_GPIO` check, true otherwise. -/
def esp_gpio_swd_mode_possible (validGpio : Int → Bool) (cfg : Config) : Bool :=
  if !validGpio cfg.swclk_gpio then false
  else if !validGpio cfg.swdio_gpio then false
  else true

/-- `esp_gpio_handle_jtag_gpionums` (command `esp_gpio_jtag_nums`): with
exactly 4 arguments, stores them as tck, tms, tdi, tdo; with any other
nonzero count returns ERROR_COMMAND_SYNTAX_ERROR leaving the configuration
untouched; with 0 arguments only prints the current values.  Arguments are
modelled as the already parsed integers.  Result: (return code, new
configuration). -/
def esp_gpio_handle_jtag_gpionums (args : List Int) (cfg : Config) : Int × Config :=
  match args with
  | [a, b, c, d] =>
      (ERROR_OK, { cfg with tck_gpio := a, tms_gpio := b, tdi_gpio := c, tdo_gpio := d })
  | [] => (ERROR_OK, cfg)
  | _ => (ERROR_COMMAND_SYNERR, cfg)

/-- `esp_gpio_handle_jtag_gpionum_tck` (command `esp_gpio_tck_num`): with
exactly 1 argument stores it as tck; any other count only prints the current
value — note the source has no syntax-error branch here. -/
def esp_gpio_handle_jtag_gpionum_tck (args : List Int) (cfg : Config) : Int × Config :=
  match args with
  | [a] => (ERROR_OK, { cfg with tck_gpio := a })
  | _ => (ERROR_OK, cfg)

/-- `esp_gpio_handle_jtag_gpionum_tms` (command `esp_gpio_tms_num`). -/
def esp_gpio_handle_jtag_gpionum_tms (args : List Int) (cfg : Config) : Int × Config :=
  match args with
  | [a] => (ERROR_OK, { cfg with tms_gpio := a })
  | _ => (ERROR_OK, cfg)

/-- `esp_gpio_handle_jtag_gpionum_tdo` (command `esp_gpio_tdo_num`). -/
def esp_gpio_handle_jtag_gpionum_tdo (args : List Int) (cfg : Config) : Int × Config :=
  match args with
  | [a] => (ERROR_OK, { cfg with tdo_gpio := a })
  | _ => (ERROR_OK, cfg)

/-- `esp_gpio_handle_jtag_gpionum_tdi` (command `esp_gpio_tdi_num`). -/
def esp_gpio_handle_jtag_gpionum_tdi (args : List Int) (cfg : Config) : Int × Config :=
  match args with
  | [a] => (ERROR_OK, { cfg with tdi_gpio := a })
  | _ => (ERROR_OK, cfg)

/-- `esp_gpio_handle_jtag_gpionum_srst` (command `esp_gpio_srst_num`). -/
def esp_gpio_handle_jtag_gpionum_srst (args : List Int) (cfg : Config) : Int × Config :=
  match args with
  | [a] => (ERROR_OK, { cfg with srst_gpio := a })
  | _ => (ERROR_OK, cfg)

/-- `esp_gpio_handle_jtag_gpionum_trst` (command `esp_gpio_trst_num`). -/
def esp_gpio_handle_jtag_gpionum_trst (args : List Int) (cfg : Config) : Int × Config :=
  match args with
  | [a] => (ERROR_OK, { cfg with trst_gpio := a })
  | _ => (ERROR_OK, cfg)

/-- `esp_gpio_handle_jtag_gpionum_blink` (command `esp_gpio_blink_num`). -/
def esp_gpio_handle_jtag_gpionum_blink (args : List Int) (cfg : Config) : Int × Config :=
  match args with
  | [a] => (ERROR_OK, { cfg with blink_gpio := a })
  | _ => (ERROR_OK, cfg)

/-- `esp_gpio_handle_swd_gpionums` (command `esp_gpio_swd_nums`): with
exactly 2 arguments, stores them as swclk, swdio; with any other nonzero
count returns ERROR_COMMAND_SYNTAX_ERROR leaving the configuration
untouched; with 0 arguments only prints. -/
def esp_gpio_handle_swd_gpionums (args : List Int) (cfg : Config) : Int × Config :=
  match args with
  | [a, b] => (ERROR_OK, { cfg with swclk_gpio := a, swdio_gpio := b })
  | [] => (ERROR_OK, cfg)
  | _ => (ERROR_COMMAND_SYNERR, cfg)

/-- `esp_gpio_handle_swd_gpionum_swclk` (command `esp_gpio_swclk_num`). -/
def esp_gpio_handle_swd_gpionum_swclk (args : List Int) (cfg : Config) : Int × Config :=
  match args with
  | [a] => (ERROR_OK, { cfg with swclk_gpio := a })
  | _ => (ERROR_OK, cfg)

/-- `esp_gpio_handle_swd_gpionum_swdio` (command `esp_gpio_swdio_num`). -/
def esp_gpio_handle_swd_gpionum_swdio (args : List Int) (cfg : Config) : Int × Config :=
  match args with
  | [a] => (ERROR_OK, { cfg with swdio_gpio := a })
  | _ => (ERROR_OK, cfg)

/-- Modelled from the spec: `TransportMode` — the externally supplied active
transport, an enum-like value that is exactly one of JTAG or SWD (spec §3;
the `transport_is_jtag`/`transport_is_swd` queries live in
src/transport/transport.c, outside the sources provided here). -/
inductive TransportMode where
  | jtag
  | swd
deriving DecidableEq, Repr

/-- Modelled from the spec: `transport_is_jtag()` — true when the externally
supplied transport mode is JTAG. -/
def transport_is_jtag : TransportMode → Bool
  | .jtag => true
  | .swd => false

/-- Modelled from the spec: `transport_is_swd()` — true when the externally
supplied transport mode is SWD. -/
def transport_is_swd : TransportMode → Bool
  | .jtag => false
  | .swd => true

/-- Which function is installed in `esp_gpio_bitbang.blink` by
`esp_gpio_init` (NULL at the start of the call). -/
inductive BlinkCb where
  | jtagBlink
  | swdBlink
deriving DecidableEq, Repr

/-- The observable outcome of one `esp_gpio_init` call:
return code, the `s_jtag_speed_khz` value after the call, whether the
JTAG-path (resp. SWD-path) pin-direction/level setup ran, the pin arrays
passed to `dedic_gpio_new_bundle` for the output and input bundles (`none`
when no bundle was allocated), whether the final
`bitbang_interface = &esp_gpio_bitbang` hookup was reached, and which blink
callback was installed. -/
structure InitResult where
  ret : Int
  speedKhz : Int
  jtagSetup : Bool
  swdSetup : Bool
  outBundle : Option (List Int)
  inBundle : Option (List Int)
  hooked : Bool
  blinkCb : Option BlinkCb
deriving DecidableEq, Repr

/-- The `bundle_out_gpios` array as passed to `dedic_gpio_new_bundle`:
declared as `{ tck_gpio, tdi_gpio, tms_gpio, 0, 0, 0 }` and then slots 3, 4
and 5 overwritten with the TRST, SRST and indicator pins when those are
configured. -/
def bundle_out_gpios (cfg : Config) : List Int :=
  let base := [cfg.tck_gpio, cfg.tdi_gpio, cfg.tms_gpio, 0, 0, 0]
  let b1 := if cfg.trst_gpio ≠ GPIO_NUM_NC then base.set 3 cfg.trst_gpio else base
  let b2 := if cfg.srst_gpio ≠ GPIO_NUM_NC then b1.set 4 cfg.srst_gpio else b1
  if cfg.blink_gpio ≠ GPIO_NUM_NC then b2.set 5 cfg.blink_gpio else b2

/-- The output-bundle pin list as claim C4 words it (refinement comparison
only, stated from the claim, not from the source): `[TCK, TDI, TMS]` followed
by the TRST, SRST and indicator pins, each slot simply absent when the
optional pin is unconfigured. -/
def bundle_out_claimed (cfg : Config) : List Int :=
  [cfg.tck_gpio, cfg.tdi_gpio, cfg.tms_gpio] ++
    (if cfg.trst_gpio ≠ GPIO_NUM_NC then [cfg.trst_gpio] else []) ++
    (if cfg.srst_gpio ≠ GPIO_NUM_NC then [cfg.srst_gpio] else []) ++
    (if cfg.blink_gpio ≠ GPIO_NUM_NC then [cfg.blink_gpio] else [])

/-- `esp_gpio_init()`: records a 5000 kHz nominal speed via
`esp_gpio_khz(5000, &jtag_speed)`, then runs the JTAG branch when
`transport_is_jtag()` (validate with `esp_gpio_jtag_mode_possible`, on
failure return ERROR_FAIL before any bundle allocation; on success set up
the pins and allocate the output and input bundles), then the SWD branch
when `transport_is_swd()` (validate with `esp_gpio_swd_mode_possible`, on
failure return ERROR_FAIL before the bitbang hookup), and finally installs
`bitbang_interface = &esp_gpio_bitbang` and returns ERROR_OK.  The two
branch conditions are checked sequentially, exactly as the two `if`
statements in the source. -/
def esp_gpio_init (mode : TransportMode) (validOutputGpio validGpio : Int → Bool)
    (cfg : Config) (s_speed : Int) : InitResult :=
  let s1 := (esp_gpio_khz 5000 s_speed 0).2.1
  let r0 : InitResult :=
    { ret := ERROR_OK, speedKhz := s1, jtagSetup := false, swdSetup := false,
      outBundle := none, inBundle := none, hooked := false, blinkCb := none }
  if transport_is_jtag mode then
    if esp_gpio_jtag_mode_possible validOutputGpio validGpio cfg then
      let r1 :=
        { r0 with jtagSetup := true,
                  outBundle := some (bundle_out_gpios cfg),
                  inBundle := some [cfg.tdo_gpio],
                  blinkCb := if cfg.blink_gpio ≠ GPIO_NUM_NC then some BlinkCb.jtagBlink else none }
      if transport_is_swd mode then
        if esp_gpio_swd_mode_possible validGpio cfg then
          { r1 with swdSetup := true, hooked := true,
                    blinkCb := if cfg.blink_gpio ≠ GPIO_NUM_NC then some BlinkCb.swdBlink else r1.blinkCb }
        else
          { r1 with ret := ERROR_FAIL }
      else
        { r1 with hooked := true }
    else
      { r0 with ret := ERROR_FAIL }
  else
    if transport_is_swd mode then
      if esp_gpio_swd_mode_possible validGpio cfg then
        { r0 with swdSetup := true, hooked := true,
                  blinkCb := if cfg.blink_gpio ≠ GPIO_NUM_NC then some BlinkCb.swdBlink else none }
      else
        { r0 with ret := ERROR_FAIL }
    else
      { r0 with hooked := true }

/-! ### Helper lemmas about `writeMask` and bit masks -/

/-- One masked write changes exactly the bits selected by the mask. -/
theorem writeMask_testBit (m v o i : Nat) :
    (writeMask m v o).testBit i = if m.testBit i then v.testBit i else o.testBit i := by
  simp only [writeMask, Nat.testBit_or, Nat.testBit_xor, Nat.testBit_and]
  cases m.testBit i <;> cases v.testBit i <;> cases o.testBit i <;> simp

/-- Bit `i` of `2 ^ k` is set exactly when `i = k`. -/
theorem testBit_two_pow_decide (k i : Nat) : ((2 : Nat) ^ k).testBit i = decide (k = i) := by
  by_cases h : k = i
  · subst h; simp
  · simp [Nat.testBit_two_pow_of_ne h, h]

theorem GPIO_TCK_MASK_testBit (i : Nat) : GPIO_TCK_MASK.testBit i = decide (0 = i) := by
  have h : GPIO_TCK_MASK = 2 ^ 0 := rfl
  rw [h, testBit_two_pow_decide]

theorem GPIO_TDI_MASK_testBit (i : Nat) : GPIO_TDI_MASK.testBit i = decide (1 = i) := by
  have h : GPIO_TDI_MASK = 2 ^ 1 := rfl
  rw [h, testBit_two_pow_decide]

theorem GPIO_TMS_MASK_testBit (i : Nat) : GPIO_TMS_MASK.testBit i = decide (2 = i) := by
  have h : GPIO_TMS_MASK = 2 ^ 2 := rfl
  rw [h, testBit_two_pow_decide]

theorem GPIO_TRST_MASK_testBit (i : Nat) : GPIO_TRST_MASK.testBit i = decide (3 = i) := by
  have h : GPIO_TRST_MASK = 2 ^ 3 := rfl
  rw [h, testBit_two_pow_decide]

theorem GPIO_SRST_MASK_testBit (i : Nat) : GPIO_SRST_MASK.testBit i = decide (4 = i) := by
  have h : GPIO_SRST_MASK = 2 ^ 4 := rfl
  rw [h, testBit_two_pow_decide]

theorem GPIO_BLINK_MASK_testBit (i : Nat) : GPIO_BLINK_MASK.testBit i = decide (5 = i) := by
  have h : GPIO_BLINK_MASK = 2 ^ 5 := rfl
  rw [h, testBit_two_pow_decide]

/-- Bit `i` of the C-truthiness value `if c then m else 0`. -/
theorem testBit_ite_mask (c : Prop) [Decidable c] (m z i : Nat) (hz : z = 0) :
    ((if c then m else z).testBit i) = (decide c && m.testBit i) := by
  by_cases h : c <;> simp [h, hz]

/-! ### C1: the JTAG single-cycle write -/

/-- Claim C1: `esp_gpio_write(tck, tms, tdi)` leaves the output bundle with
its TCK, TMS and TDI bits equal to the boolean-normalized arguments, leaves
the TRST, SRST and indicator bits unchanged, has exactly the effect of one
single atomic masked bundle write covering the three bits, and returns
success. -/
theorem esp_gpio_write_spec (tck tms tdi : Int) (out_ : Nat) :
    (esp_gpio_write tck tms tdi out_).2 = ERROR_OK ∧
    (esp_gpio_write tck tms tdi out_).1.testBit 0 = decide (tck ≠ 0) ∧
    (esp_gpio_write tck tms tdi out_).1.testBit 2 = decide (tms ≠ 0) ∧
    (esp_gpio_write tck tms tdi out_).1.testBit 1 = decide (tdi ≠ 0) ∧
    (esp_gpio_write tck tms tdi out_).1.testBit 3 = out_.testBit 3 ∧
    (esp_gpio_write tck tms tdi out_).1.testBit 4 = out_.testBit 4 ∧
    (esp_gpio_write tck tms tdi out_).1.testBit 5 = out_.testBit 5 ∧
    (esp_gpio_write tck tms tdi out_).1 =
      writeMask (GPIO_TCK_MASK ||| GPIO_TDI_MASK ||| GPIO_TMS_MASK)
        ((if tck ≠ 0 then GPIO_TCK_MASK else 0) |||
         (if tdi ≠ 0 then GPIO_TDI_MASK else 0) |||
         (if tms ≠ 0 then GPIO_TMS_MASK else 0)) out_ := by
  refine ⟨rfl, ?_, ?_, ?_, ?_, ?_, ?_, ?_⟩
  case _ =>
    simp only [esp_gpio_write, writeMask_testBit, GPIO_TCK_MASK_testBit,
      GPIO_TDI_MASK_testBit, GPIO_TMS_MASK_testBit]
    by_cases h : tck ≠ 0 <;>
      (simp [h, GPIO_TCK_MASK, GPIO_TDI_MASK, GPIO_TMS_MASK] <;> decide)
  case _ =>
    simp only [esp_gpio_write, writeMask_testBit, GPIO_TCK_MASK_testBit,
      GPIO_TDI_MASK_testBit, GPIO_TMS_MASK_testBit]
    by_cases h : tms ≠ 0 <;>
      (simp [h, GPIO_TCK_MASK, GPIO_TDI_MASK, GPIO_TMS_MASK] <;> decide)
  case _ =>
    simp only [esp_gpio_write, writeMask_testBit, GPIO_TCK_MASK_testBit,
      GPIO_TDI_MASK_testBit, GPIO_TMS_MASK_testBit]
    by_cases h : tdi ≠ 0 <;>
      (simp [h, GPIO_TCK_MASK, GPIO_TDI_MASK, GPIO_TMS_MASK] <;> decide)
  case _ =>
    simp [esp_gpio_write, writeMask_testBit, GPIO_TCK_MASK_testBit,
      GPIO_TDI_MASK_testBit, GPIO_TMS_MASK_testBit]
  case _ =>
    simp [esp_gpio_write, writeMask_testBit, GPIO_TCK_MASK_testBit,
      GPIO_TDI_MASK_testBit, GPIO_TMS_MASK_testBit]
  case _ =>
    simp [esp_gpio_write, writeMask_testBit, GPIO_TCK_MASK_testBit,
      GPIO_TDI_MASK_testBit, GPIO_TMS_MASK_testBit]
  case _ =>
    apply Nat.eq_of_testBit_eq
    intro i
    simp only [esp_gpio_write, writeMask_testBit, Nat.testBit_or,
      GPIO_TCK_MASK_testBit, GPIO_TDI_MASK_testBit, GPIO_TMS_MASK_testBit,
      testBit_ite_mask _ _ _ _ rfl]
    by_cases h0 : (0 : Nat) = i <;> by_cases h1 : (1 : Nat) = i <;>
      by_cases h2 : (2 : Nat) = i <;> first | omega | simp [h0, h1, h2]

/-! ### C6: the reset-line write -/

/-- Bit-level characterization of `esp_gpio_reset`: bit 3 (TRST) follows the
`trst` argument when the TRST pin is configured, bit 4 (SRST) follows the
`srst` argument when the SRST pin is configured, every other bit keeps its
previous value. -/
theorem esp_gpio_reset_testBit (cfg : Config) (trst srst : Int) (out_ : Nat) (i : Nat) :
    (esp_gpio_reset cfg trst srst out_).1.testBit i =
      if 4 = i ∧ cfg.srst_gpio ≠ GPIO_NUM_NC then decide (srst ≠ 0)
      else if 3 = i ∧ cfg.trst_gpio ≠ GPIO_NUM_NC then decide (trst ≠ 0)
      else out_.testBit i := by
  by_cases ht : cfg.trst_gpio ≠ GPIO_NUM_NC <;>
    by_cases hs : cfg.srst_gpio ≠ GPIO_NUM_NC <;>
      by_cases htr : trst = 0 <;> by_cases hsr : srst = 0 <;>
        by_cases h3 : (3 : Nat) = i <;> by_cases h4 : (4 : Nat) = i <;>
          first
          | omega
          | simp [esp_gpio_reset, ht, hs, htr, hsr, h3, h4, writeMask_testBit,
              GPIO_TRST_MASK_testBit, GPIO_SRST_MASK_testBit]

/-- Claim C6: `esp_gpio_reset(trst, srst)` sets the TRST bundle bit to the
boolean-normalized `trst` when the TRST pin is configured and leaves it
untouched otherwise; independently likewise for SRST; every other bundle bit
is untouched, a call with both lines unconfigured changes nothing, and the
call always returns success. -/
theorem esp_gpio_reset_spec (cfg : Config) (trst srst : Int) (out_ : Nat) :
    (esp_gpio_reset cfg trst srst out_).2 = ERROR_OK ∧
    (esp_gpio_reset cfg trst srst out_).1.testBit 3 =
      (if cfg.trst_gpio ≠ GPIO_NUM_NC then decide (trst ≠ 0) else out_.testBit 3) ∧
    (esp_gpio_reset cfg trst srst out_).1.testBit 4 =
      (if cfg.srst_gpio ≠ GPIO_NUM_NC then decide (srst ≠ 0) else out_.testBit 4) ∧
    (esp_gpio_reset cfg trst srst out_).1.testBit 0 = out_.testBit 0 ∧
    (esp_gpio_reset cfg trst srst out_).1.testBit 1 = out_.testBit 1 ∧
    (esp_gpio_reset cfg trst srst out_).1.testBit 2 = out_.testBit 2 ∧
    (esp_gpio_reset cfg trst srst out_).1.testBit 5 = out_.testBit 5 ∧
    (cfg.trst_gpio = GPIO_NUM_NC → cfg.srst_gpio = GPIO_NUM_NC →
      (esp_gpio_reset cfg trst srst out_).1 = out_) := by
  refine ⟨rfl, ?_, ?_, ?_, ?_, ?_, ?_, fun h1 h2 => by simp [esp_gpio_reset, h1, h2]⟩ <;>
    (rw [esp_gpio_reset_testBit]; simp)

/-- Witness for C6 at concrete inputs: only TRST configured (pin 3),
asserting TRST with `trst = 1`, `srst = 0`, starting from register 0b100000;
and with no reset line configured the register is untouched. -/
theorem esp_gpio_reset_spec_witness :
    (esp_gpio_reset { defaultConfig with trst_gpio := 3 } 1 0 32).2 = ERROR_OK ∧
    (esp_gpio_reset { defaultConfig with trst_gpio := 3 } 1 0 32).1.testBit 3 = true ∧
    (esp_gpio_reset { defaultConfig with trst_gpio := 3 } 1 0 32).1.testBit 4 =
      (32 : Nat).testBit 4 ∧
    (esp_gpio_reset { defaultConfig with trst_gpio := 3 } 1 0 32).1.testBit 5 =
      (32 : Nat).testBit 5 ∧
    (esp_gpio_reset defaultConfig 1 1 7).1 = 7 := by
  have h := esp_gpio_reset_spec { defaultConfig with trst_gpio := 3 } 1 0 32
  have hnc := esp_gpio_reset_spec defaultConfig 1 1 7
  refine ⟨h.1, ?_, ?_, h.2.2.2.2.2.2.1, hnc.2.2.2.2.2.2.2 rfl rfl⟩
  · have h3 := h.2.1
    simpa using h3
  · have h4 := h.2.2.1
    simpa using h4

/-! ### C5: the speed setter -/

/-- Claim C5: `esp_gpio_khz(0)` fails with ERROR_FAIL and leaves the recorded
nominal kHz (and the output flag) unchanged; `esp_gpio_khz(khz)` for nonzero
khz records the value (so a following `esp_gpio_speed_div` query returns it),
writes 0 to the effective-speed flag and returns ERROR_OK. -/
theorem esp_gpio_khz_spec (khz s_speed jtag_speed speed : Int) :
    esp_gpio_khz 0 s_speed jtag_speed = (ERROR_FAIL, s_speed, jtag_speed) ∧
    (khz ≠ 0 →
      esp_gpio_khz khz s_speed jtag_speed = (ERROR_OK, khz, 0) ∧
      esp_gpio_speed_div speed (esp_gpio_khz khz s_speed jtag_speed).2.1 =
        (ERROR_OK, khz)) := by
  refine ⟨by simp [esp_gpio_khz], fun h => ?_⟩
  simp [esp_gpio_khz, esp_gpio_speed_div, h]

/-- Witness for C5 at khz = 100, previous nominal 77, previous flag 5. -/
theorem esp_gpio_khz_spec_witness :
    esp_gpio_khz 0 77 5 = (ERROR_FAIL, 77, 5) ∧
    esp_gpio_khz 100 77 5 = (ERROR_OK, 100, 0) ∧
    esp_gpio_speed_div 9 (esp_gpio_khz 100 77 5).2.1 = (ERROR_OK, 100) := by
  have h := esp_gpio_khz_spec 100 77 5 9
  exact ⟨h.1, (h.2 (by decide)).1, (h.2 (by decide)).2⟩

/-! ### C2 and C9: the mode validators -/

/-- Claim C2: `esp_gpio_jtag_mode_possible` returns true exactly when TCK,
TMS and TDO pass the platform output-capable check and TDI passes the
generic valid-GPIO check; whenever any one of the four fails its check the
result is false. -/
theorem esp_gpio_jtag_mode_possible_spec (validOutputGpio validGpio : Int → Bool)
    (cfg : Config) :
    esp_gpio_jtag_mode_possible validOutputGpio validGpio cfg = true ↔
      (validOutputGpio cfg.tck_gpio = true ∧ validOutputGpio cfg.tms_gpio = true ∧
       validGpio cfg.tdi_gpio = true ∧ validOutputGpio cfg.tdo_gpio = true) := by
  cases h1 : validOutputGpio cfg.tck_gpio <;>
    cases h2 : validOutputGpio cfg.tms_gpio <;>
      cases h3 : validGpio cfg.tdi_gpio <;>
        cases h4 : validOutputGpio cfg.tdo_gpio <;>
          simp [esp_gpio_jtag_mode_possible, h1, h2, h3, h4]

/-- Claim C9: `esp_gpio_swd_mode_possible` returns true exactly when both
SWCLK and SWDIO pass the generic valid-GPIO check; if either fails the
result is false. -/
theorem esp_gpio_swd_mode_possible_spec (validGpio : Int → Bool) (cfg : Config) :
    esp_gpio_swd_mode_possible validGpio cfg = true ↔
      (validGpio cfg.swclk_gpio = true ∧ validGpio cfg.swdio_gpio = true) := by
  cases h1 : validGpio cfg.swclk_gpio <;>
    cases h2 : validGpio cfg.swdio_gpio <;>
      simp [esp_gpio_swd_mode_possible, h1, h2]

/-- Witness for C2 at a concrete input: jtag pins 4 5 6 7, with the platform
checks accepting every nonnegative pin index. -/
theorem esp_gpio_jtag_mode_possible_spec_witness :
    esp_gpio_jtag_mode_possible (fun p => decide (0 ≤ p)) (fun p => decide (0 ≤ p))
      { defaultConfig with tck_gpio := 4, tms_gpio := 5, tdi_gpio := 6, tdo_gpio := 7 } =
      true :=
  (esp_gpio_jtag_mode_possible_spec (fun p => decide (0 ≤ p)) (fun p => decide (0 ≤ p))
    { defaultConfig with tck_gpio := 4, tms_gpio := 5, tdi_gpio := 6, tdo_gpio := 7 }).mpr
    ⟨by decide, by decide, by decide, by decide⟩

/-- Witness for C9 at a concrete input: swd pins 10 and 11, with the platform
check accepting every nonnegative pin index. -/
theorem esp_gpio_swd_mode_possible_spec_witness :
    esp_gpio_swd_mode_possible (fun p => decide (0 ≤ p))
      { defaultConfig with swclk_gpio := 10, swdio_gpio := 11 } = true :=
  (esp_gpio_swd_mode_possible_spec (fun p => decide (0 ≤ p))
    { defaultConfig with swclk_gpio := 10, swdio_gpio := 11 }).mpr
    ⟨by decide, by decide⟩

/-! ### C10: init always records 5000 kHz -/

/-- Claim C10: every `esp_gpio_init` call records a nominal speed of
5000 kHz before any validation runs — whatever the transport mode, the pin
configuration, the platform checks, the previously recorded value and the
outcome of the call — so a subsequent `esp_gpio_speed_div` query reports
5000. -/
theorem esp_gpio_init_speed_spec (mode : TransportMode)
    (validOutputGpio validGpio : Int → Bool) (cfg : Config) (s_speed speed : Int) :
    (esp_gpio_init mode validOutputGpio validGpio cfg s_speed).speedKhz = 5000 ∧
    esp_gpio_speed_div speed
        (esp_gpio_init mode validOutputGpio validGpio cfg s_speed).speedKhz =
      (ERROR_OK, 5000) := by
  cases mode <;>
    simp [esp_gpio_init, esp_gpio_khz, esp_gpio_speed_div,
      transport_is_jtag, transport_is_swd, apply_ite InitResult.speedKhz]

/-! ### C7: exactly one transport path per session -/

/-- Claim C7: the JTAG-path and SWD-path hardware setups never both execute
in one `esp_gpio_init` call, and in a successful call the path that executed
is exactly the one matching the externally supplied transport mode. -/
theorem esp_gpio_init_exclusive (mode : TransportMode)
    (validOutputGpio validGpio : Int → Bool) (cfg : Config) (s_speed : Int) :
    (¬((esp_gpio_init mode validOutputGpio validGpio cfg s_speed).jtagSetup = true ∧
       (esp_gpio_init mode validOutputGpio validGpio cfg s_speed).swdSetup = true)) ∧
    ((esp_gpio_init mode validOutputGpio validGpio cfg s_speed).ret = ERROR_OK →
      (esp_gpio_init mode validOutputGpio validGpio cfg s_speed).jtagSetup =
          transport_is_jtag mode ∧
        (esp_gpio_init mode validOutputGpio validGpio cfg s_speed).swdSetup =
          transport_is_swd mode) := by
  cases mode <;>
    simp only [esp_gpio_init, transport_is_jtag, transport_is_swd,
      if_true, if_false, Bool.false_eq_true, ite_false, ite_true] <;>
    split_ifs <;> simp [ERROR_OK, ERROR_FAIL]

/-- Witness for C7: a successful JTAG init (pins 4, 5, 6, 7; every pin
index accepted by the platform checks) ran the JTAG path and not the SWD
path. -/
theorem esp_gpio_init_exclusive_witness :
    (esp_gpio_init TransportMode.jtag (fun p => decide (0 ≤ p)) (fun p => decide (0 ≤ p))
        { defaultConfig with tck_gpio := 4, tms_gpio := 5, tdi_gpio := 6, tdo_gpio := 7 }
        0).jtagSetup = true ∧
    (esp_gpio_init TransportMode.jtag (fun p => decide (0 ≤ p)) (fun p => decide (0 ≤ p))
        { defaultConfig with tck_gpio := 4, tms_gpio := 5, tdi_gpio := 6, tdo_gpio := 7 }
        0).swdSetup = false := by
  have h := (esp_gpio_init_exclusive TransportMode.jtag
    (fun p => decide (0 ≤ p)) (fun p => decide (0 ≤ p))
    { defaultConfig with tck_gpio := 4, tms_gpio := 5, tdi_gpio := 6, tdo_gpio := 7 }
    0).2 (by decide)
  exact ⟨h.1, h.2⟩

/-! ### C8: validation failure aborts init -/

/-- Claim C8: when the requested transport's validation fails,
`esp_gpio_init` returns ERROR_FAIL and nothing of that transport's setup
happens: no pin setup ran, no bundle was allocated, and the bitbang
interface hookup was not reached (only the unconditional 5000 kHz speed
recording has taken place). -/
theorem esp_gpio_init_validation_failure (mode : TransportMode)
    (validOutputGpio validGpio : Int → Bool) (cfg : Config) (s_speed : Int) :
    (mode = TransportMode.jtag →
      esp_gpio_jtag_mode_possible validOutputGpio validGpio cfg = false →
      esp_gpio_init mode validOutputGpio validGpio cfg s_speed =
        { ret := ERROR_FAIL, speedKhz := 5000, jtagSetup := false, swdSetup := false,
          outBundle := none, inBundle := none, hooked := false, blinkCb := none }) ∧
    (mode = TransportMode.swd →
      esp_gpio_swd_mode_possible validGpio cfg = false →
      esp_gpio_init mode validOutputGpio validGpio cfg s_speed =
        { ret := ERROR_FAIL, speedKhz := 5000, jtagSetup := false, swdSetup := false,
          outBundle := none, inBundle := none, hooked := false, blinkCb := none }) := by
  constructor
  · rintro rfl h
    simp [esp_gpio_init, transport_is_jtag, transport_is_swd, h, esp_gpio_khz]
  · rintro rfl h
    simp [esp_gpio_init, transport_is_jtag, transport_is_swd, h, esp_gpio_khz]

/-- Witness for C8: JTAG requested with every pin unconfigured (platform
checks reject -1), so init fails without any allocation or hookup. -/
theorem esp_gpio_init_validation_failure_witness :
    esp_gpio_init TransportMode.jtag (fun p => decide (0 ≤ p)) (fun p => decide (0 ≤ p))
        defaultConfig 0 =
      { ret := ERROR_FAIL, speedKhz := 5000, jtagSetup := false, swdSetup := false,
        outBundle := none, inBundle := none, hooked := false, blinkCb := none } ∧
    esp_gpio_init TransportMode.swd (fun p => decide (0 ≤ p)) (fun p => decide (0 ≤ p))
        defaultConfig 0 =
      { ret := ERROR_FAIL, speedKhz := 5000, jtagSetup := false, swdSetup := false,
        outBundle := none, inBundle := none, hooked := false, blinkCb := none } :=
  ⟨(esp_gpio_init_validation_failure TransportMode.jtag
      (fun p => decide (0 ≤ p)) (fun p => decide (0 ≤ p)) defaultConfig 0).1 rfl (by decide),
   (esp_gpio_init_validation_failure TransportMode.swd
      (fun p => decide (0 ≤ p)) (fun p => decide (0 ≤ p)) defaultConfig 0).2 rfl (by decide)⟩

/-! ### C4: the bundle layout -/

/-- Counterexample to claim C4 as stated: configuring jtag pins 4 5 6 7 with
no optional pin and running a JTAG init, the output-bundle pin array the
code hands to `dedic_gpio_new_bundle` is the six-element `[4, 6, 5, 0, 0, 0]`
— the three unconfigured optional slots are present and filled with
placeholder pin 0 — and not the claim's `[4, 6, 5]` with the three slots
absent. -/
theorem esp_gpio_init_bundle_counterexample :
    (esp_gpio_init TransportMode.jtag (fun p => decide (0 ≤ p)) (fun p => decide (0 ≤ p))
        { defaultConfig with tck_gpio := 4, tms_gpio := 5, tdi_gpio := 6, tdo_gpio := 7 }
        0).outBundle = some [4, 6, 5, 0, 0, 0] ∧
    bundle_out_claimed
        { defaultConfig with tck_gpio := 4, tms_gpio := 5, tdi_gpio := 6, tdo_gpio := 7 } =
      [4, 6, 5] ∧
    ([4, 6, 5, 0, 0, 0] : List Int) ≠ [4, 6, 5] := by
  refine ⟨?_, by decide, by decide⟩
  decide

/-- Claim C4 amended: a JTAG-mode initialization allocates exactly one
output bundle whose pin array is the fixed six-slot list
`[TCK, TDI, TMS, TRST-or-0, SRST-or-0, Indicator-or-0]` (bit0=TCK, bit1=TDI,
bit2=TMS, bit3=TRST, bit4=SRST, bit5=Indicator, an unconfigured optional
slot holding placeholder pin 0 rather than being absent) and one input
bundle containing only `[TDO]` at bit 0. -/
theorem esp_gpio_init_bundle_spec (validOutputGpio validGpio : Int → Bool)
    (cfg : Config) (s_speed : Int)
    (h : esp_gpio_jtag_mode_possible validOutputGpio validGpio cfg = true) :
    (esp_gpio_init TransportMode.jtag validOutputGpio validGpio cfg s_speed).outBundle =
      some [cfg.tck_gpio, cfg.tdi_gpio, cfg.tms_gpio,
            if cfg.trst_gpio ≠ GPIO_NUM_NC then cfg.trst_gpio else 0,
            if cfg.srst_gpio ≠ GPIO_NUM_NC then cfg.srst_gpio else 0,
            if cfg.blink_gpio ≠ GPIO_NUM_NC then cfg.blink_gpio else 0] ∧
    (esp_gpio_init TransportMode.jtag validOutputGpio validGpio cfg s_speed).inBundle =
      some [cfg.tdo_gpio] := by
  constructor
  · by_cases ht : cfg.trst_gpio ≠ GPIO_NUM_NC <;>
      by_cases hs : cfg.srst_gpio ≠ GPIO_NUM_NC <;>
        by_cases hb : cfg.blink_gpio ≠ GPIO_NUM_NC <;>
          simp [esp_gpio_init, transport_is_jtag, transport_is_swd, h,
            bundle_out_gpios, List.set, ht, hs, hb]
  · simp [esp_gpio_init, transport_is_jtag, transport_is_swd, h]

/-- Witness for (amended) C4 at jtag pins 4 5 6 7 with SRST on pin 9. -/
theorem esp_gpio_init_bundle_spec_witness :
    (esp_gpio_init TransportMode.jtag (fun p => decide (0 ≤ p)) (fun p => decide (0 ≤ p))
        { defaultConfig with tck_gpio := 4, tms_gpio := 5, tdi_gpio := 6, tdo_gpio := 7,
                             srst_gpio := 9 }
        0).outBundle = some [4, 6, 5, 0, 9, 0] ∧
    (esp_gpio_init TransportMode.jtag (fun p => decide (0 ≤ p)) (fun p => decide (0 ≤ p))
        { defaultConfig with tck_gpio := 4, tms_gpio := 5, tdi_gpio := 6, tdo_gpio := 7,
                             srst_gpio := 9 }
        0).inBundle = some [7] := by
  have h := esp_gpio_init_bundle_spec (fun p => decide (0 ≤ p)) (fun p => decide (0 ≤ p))
    { defaultConfig with tck_gpio := 4, tms_gpio := 5, tdi_gpio := 6, tdo_gpio := 7,
                         srst_gpio := 9 }
    0 (by decide)
  refine ⟨?_, h.2⟩
  rw [h.1]
  decide

/-! ### C3: argument-count handling of the configuration commands -/

/-- Counterexample to claim C3 as stated: the single-pin command
`esp_gpio_tck_num` called with 2 arguments does not return a syntax error —
it silently ignores the arguments and returns ERROR_OK (the source's
single-pin handlers have no syntax-error branch). -/
theorem esp_gpio_handle_argc_counterexample :
    esp_gpio_handle_jtag_gpionum_tck [1, 2] defaultConfig = (ERROR_OK, defaultConfig) ∧
    ERROR_OK ≠ ERROR_COMMAND_SYNERR := by
  exact ⟨rfl, by decide⟩

/-- Claim C3 amended: the grouped commands (`esp_gpio_jtag_nums` expecting
4 arguments, `esp_gpio_swd_nums` expecting 2) return a syntax error for any
other nonzero argument count and leave every stored pin assignment
unchanged, and a zero-argument call is a query that changes nothing; the
single-pin commands with an argument count other than 1 also leave every
assignment unchanged but return success instead of a syntax error. -/
theorem esp_gpio_handle_argc_spec (args : List Int) (cfg : Config) :
    (args.length ≠ 4 → args.length ≠ 0 →
      esp_gpio_handle_jtag_gpionums args cfg = (ERROR_COMMAND_SYNERR, cfg)) ∧
    esp_gpio_handle_jtag_gpionums [] cfg = (ERROR_OK, cfg) ∧
    (args.length ≠ 2 → args.length ≠ 0 →
      esp_gpio_handle_swd_gpionums args cfg = (ERROR_COMMAND_SYNERR, cfg)) ∧
    esp_gpio_handle_swd_gpionums [] cfg = (ERROR_OK, cfg) ∧
    (args.length ≠ 1 →
      esp_gpio_handle_jtag_gpionum_tck args cfg = (ERROR_OK, cfg) ∧
      esp_gpio_handle_jtag_gpionum_tms args cfg = (ERROR_OK, cfg) ∧
      esp_gpio_handle_jtag_gpionum_tdo args cfg = (ERROR_OK, cfg) ∧
      esp_gpio_handle_jtag_gpionum_tdi args cfg = (ERROR_OK, cfg) ∧
      esp_gpio_handle_jtag_gpionum_trst args cfg = (ERROR_OK, cfg) ∧
      esp_gpio_handle_jtag_gpionum_srst args cfg = (ERROR_OK, cfg) ∧
      esp_gpio_handle_jtag_gpionum_blink args cfg = (ERROR_OK, cfg) ∧
      esp_gpio_handle_swd_gpionum_swclk args cfg = (ERROR_OK, cfg) ∧
      esp_gpio_handle_swd_gpionum_swdio args cfg = (ERROR_OK, cfg)) := by
  rcases args with _ | ⟨a, _ | ⟨b, _ | ⟨c, _ | ⟨d, _ | ⟨e, t⟩⟩⟩⟩⟩ <;>
    refine ⟨fun h4 h0 => ?_, rfl, fun h2 h0 => ?_, rfl, fun h1 => ?_⟩ <;>
      first
      | rfl
      | exact ⟨rfl, rfl, rfl, rfl, rfl, rfl, rfl, rfl, rfl⟩
      | exact absurd rfl h4
      | exact absurd rfl h0
      | exact absurd rfl h2
      | exact absurd rfl h1

/-- Witness for (amended) C3: jtag-pins with 2 arguments is a syntax error
leaving the configuration unchanged; tck-pin with 2 arguments silently
returns success leaving the configuration unchanged. -/
theorem esp_gpio_handle_argc_spec_witness :
    esp_gpio_handle_jtag_gpionums [1, 2] defaultConfig =
      (ERROR_COMMAND_SYNERR, defaultConfig) ∧
    esp_gpio_handle_swd_gpionums [1, 2, 3] defaultConfig =
      (ERROR_COMMAND_SYNERR, defaultConfig) ∧
    esp_gpio_handle_jtag_gpionum_tck [1, 2] defaultConfig = (ERROR_OK, defaultConfig) := by
  have h := esp_gpio_handle_argc_spec [1, 2] defaultConfig
  have h3 := esp_gpio_handle_argc_spec [1, 2, 3] defaultConfig
  exact ⟨h.1 (by decide) (by decide), h3.2.2.1 (by decide) (by decide),
    (h.2.2.2.2 (by decide)).1⟩

end EspGpio
